import Mathlib

/-!
Shallow embedding of the animation-state reconciliation and activation
engine of the SDH-AnimationChanger plugin (src/main.py), together with
theorems checking its natural-language specification.

Conventions of the embedding:
* Python dicts with a fixed key set become Lean structures; the extra UI
  metadata keys (preview images, authors, ...) that no engine code path
  reads are kept only where the catalog translation produces them.
* Machine randomness (`random.randint(0, n - 1)`) becomes an explicit
  `Nat` oracle reduced modulo the pool length, which ranges over exactly
  the indices `randint` can return.
* The filesystem is an explicit environment: `os.path.exists` is a
  predicate `String → Bool`, and the success of `os.symlink` /
  `shutil.copy2` is an oracle `String → String → Bool` (failure models
  the exception the source catches at that call site).
* Python exceptions become `Except` values; the distinct `raise` sites of
  the source get distinct constructors, following the error taxonomy the
  code's messages describe (rate limit, retries exceeded, animation not
  found, symlink failure, copy failure).
-/

namespace AnimationChanger

/-- `os.path.join` on the POSIX separator (the separator choice is
irrelevant to every property proved here). -/
def pathJoin (a b : String) : String := a ++ "/" ++ b

/-- `VIDEO_TYPES` of main.py. -/
def VIDEO_TYPES : List String := ["boot", "suspend", "throbber"]

/-- `VIDEO_TARGETS` of main.py: the throbber slot reuses the suspend
target pool. -/
def VIDEO_TARGETS : List String := ["boot", "suspend", "suspend"]

/-- `get_video_names` of main.py, as the ordered list
`[boot, suspend, throbber]` (`VIDEOS_NAMES`), per platform. -/
def videosNames (isWindows : Bool) : List String :=
  if isWindows then
    ["bigpicture_startup.webm", "bigpicture_suspend.webm",
     "bigpicture_suspend_from_throbber.webm"]
  else
    ["deck_startup.webm", "steam_os_suspend.webm",
     "steam_os_suspend_from_throbber.webm"]

/-- `is_video_supported` of main.py: Windows supports only the boot
animation; Linux/SteamOS supports all three. -/
def is_video_supported (isWindows : Bool) (video_type : String) : Bool :=
  if isWindows then video_type == "boot" else true

/-- An animation entry: a local-scan entry (`id`, `name`, `target`), a
downloaded-animation record, or a custom-animation record (which also
carries an absolute `path`).  The source stores all three as dicts; the
fields that a given pool never reads default to `""`. -/
structure Anim where
  id : String
  name : String := ""
  target : String := ""
  path : String := ""
  deriving Repr, DecidableEq

/-- An animation set (local or custom): `id`, `enabled` flag, one
filename per slot.  Python's JSON `null` filename is collapsed to `""`:
every consumer (`randomize_current_set`'s truthiness test and the
scanner's emission test) treats the two identically.  The extra `enable`
key that `Plugin.enableSet` writes into the dict is kept as an `Option`
field, `none` while the key is absent. -/
structure AnimSet where
  id : String
  enabled : Bool
  boot : String := ""
  suspend : String := ""
  throbber : String := ""
  enable : Option Bool := none
  deriving Repr, DecidableEq

/-- Slot filename of a set, by slot index (0 = boot, 1 = suspend,
2 = throbber), mirroring `new_set[VIDEO_TYPES[i]]`. -/
def AnimSet.slotName (s : AnimSet) : Nat → String
  | 0 => s.boot
  | 1 => s.suspend
  | _ => s.throbber

/-- The persisted config document (`config` global of main.py),
restricted to the keys the verified code paths read. -/
structure Config where
  boot : String := ""
  suspend : String := ""
  throbber : String := ""
  current_set : String := ""
  downloads : List Anim := []
  custom_animations : List Anim := []
  custom_sets : List AnimSet := []
  shuffle_exclusions : List String := []
  deriving Repr, DecidableEq

/-- Slot selection by index, mirroring `config[VIDEO_TYPES[i]]`. -/
def Config.slotSel (c : Config) : Nat → String
  | 0 => c.boot
  | 1 => c.suspend
  | _ => c.throbber

/-- Writing `config[VIDEO_TYPES[i]] = v`. -/
def Config.setSlotSel (c : Config) : Nat → String → Config
  | 0, v => { c with boot := v }
  | 1, v => { c with suspend := v }
  | _, v => { c with throbber := v }

/-- The module-level mutable state of main.py that the selection and
randomization code reads: the config plus the local-scan results. -/
structure PState where
  config : Config
  local_animations : List Anim := []
  local_sets : List AnimSet := []
  deriving Repr, DecidableEq

/-- `get_active_sets` of main.py. -/
def get_active_sets (st : PState) : List AnimSet :=
  (st.local_sets ++ st.config.custom_sets).filter (fun s => s.enabled)

/-- `randomize_current_set` of main.py; `r` is the randomness oracle for
`random.randint(0, len(active) - 1)`. -/
def randomize_current_set (st : PState) (r : Nat) : PState :=
  let active := get_active_sets st
  if active.length > 0 then
    let new_set := active.getD (r % active.length) ⟨"", false, "", "", "", none⟩
    let c0 := { st.config with current_set := new_set.id }
    let step := fun (c : Config) (i : Nat) =>
      let filename := new_set.slotName i
      if filename ≠ "" then c.setSlotSel i (new_set.id ++ "/" ++ filename)
      else c.setSlotSel i ""
    { st with config := step (step (step c0 0) 1) 2 }
  else
    { st with config :=
        { st.config with current_set := "", boot := "", suspend := "", throbber := "" } }

/-- The eligible pool `randomize_all` builds for one slot target:
`local_animations + config['downloads'] + config['custom_animations']`,
filtered to matching target and not shuffle-excluded. -/
def animPool (st : PState) (target : String) : List Anim :=
  (st.local_animations ++ st.config.downloads ++ st.config.custom_animations).filter
    (fun a => a.target == target && !(st.config.shuffle_exclusions.contains a.id))

/-- `randomize_all` of main.py; `r i` is the randomness oracle for slot
`i`'s `random.randint`.  The pools depend only on fields the loop never
writes, so they are computed against the entry state, as in the source. -/
def randomize_all (st : PState) (r : Nat → Nat) : PState :=
  let step := fun (c : Config) (i : Nat) =>
    let pool := animPool st (VIDEO_TARGETS.getD i "")
    if pool.length > 0 then
      c.setSlotSel i ((pool.getD (r i % pool.length) ⟨"", "", "", ""⟩).id)
    else c
  { st with config := { step (step (step st.config 0) 1) 2 with current_set := "" } }

/-- `remove_custom_set` of main.py: drops every custom set whose id
matches. -/
def remove_custom_set (c : Config) (set_id : String) : Config :=
  { c with custom_sets := c.custom_sets.filter (fun entry => !(entry.id == set_id)) }

/-- `remove_custom_animation` of main.py. -/
def remove_custom_animation (c : Config) (anim_id : String) : Config :=
  { c with custom_animations := c.custom_animations.filter (fun a => !(a.id == anim_id)) }

/-- `Plugin.saveCustomSet`: remove any set with the same id, then append
the new entry (persistence via `save_config` is a pure write of the
resulting document). -/
def saveCustomSet (c : Config) (set_entry : AnimSet) : Config :=
  let c1 := remove_custom_set c set_entry.id
  { c1 with custom_sets := c1.custom_sets ++ [set_entry] }

/-- `Plugin.saveCustomAnimation`: remove any animation with the same id,
then append the new entry. -/
def saveCustomAnimation (c : Config) (anim_entry : Anim) : Config :=
  let c1 := remove_custom_animation c anim_entry.id
  { c1 with custom_animations := c1.custom_animations ++ [anim_entry] }

/-- In-place update of the first list element satisfying `p`, mirroring
the source's pattern of iterating, mutating the first match and
stopping. -/
def updateFirst (p : α → Bool) (f : α → α) : List α → List α
  | [] => []
  | x :: xs => if p x then f x :: xs else x :: updateFirst p f xs

/-- `Plugin.enableSet` of main.py.  The source iterates `local_sets`
first and, on the first id match, assigns `entry['enable'] = enable`
(note: the key `'enable'`, not the `'enabled'` key every reader
consults), dumps the entry to the per-directory config file and returns;
otherwise it does the same assignment on the first matching custom set
and saves the central config. -/
def enableSet (st : PState) (set_id : String) (enable : Bool) : PState :=
  let upd := updateFirst (fun entry => entry.id == set_id)
    (fun entry => { entry with enable := some enable })
  if st.local_sets.any (fun entry => entry.id == set_id) then
    { st with local_sets := upd st.local_sets }
  else
    { st with config := { st.config with custom_sets := upd st.config.custom_sets } }

/-! ### Local scanner (`load_local_animations`) -/

/-- The parsed per-directory `config.json` document (`anim_config`).
Outer `Option` = whether the key is present in the dict; for slot keys
the inner `Option` = JSON string vs `null`. -/
structure AnimConfigDoc where
  enabled? : Option Bool := none
  boot? : Option (Option String) := none
  suspend? : Option (Option String) := none
  throbber? : Option (Option String) := none
  deriving Repr, DecidableEq

/-- Slot key of the document by slot index, mirroring
`anim_config[VIDEO_TYPES[i]]`. -/
def AnimConfigDoc.slotKey? (doc : AnimConfigDoc) : Nat → Option (Option String)
  | 0 => doc.boot?
  | 1 => doc.suspend?
  | _ => doc.throbber?

/-- State of a directory's `config.json` on disk: absent, present but
unparseable (`json.load` raises), or parsed. -/
inductive ConfigFile where
  | absent
  | malformed
  | parsed (doc : AnimConfigDoc)
  deriving Repr, DecidableEq

/-- One immediate subdirectory of the animations root: its name, its
`config.json` state and the set of filenames present in it. -/
structure LocalDir where
  dirName : String
  cfgFile : ConfigFile
  files : List String
  deriving Repr, DecidableEq

/-- The filename `process_animation` resolves for slot `i`: the config
value when the key is present (`null` collapsed to `""`), else the
platform default, blanked when the default file is missing on disk.  An
explicitly configured filename is kept without an existence check. -/
def scanSlotFilename (doc : AnimConfigDoc) (d : LocalDir) (dflt : String) (i : Nat) : String :=
  match doc.slotKey? i with
  | some (some s) => s
  | some none => ""
  | none => if d.files.contains dflt then dflt else ""

/-- The entry `process_animation` emits for slot `i` when the resolved
filename is non-blank. -/
def scanSlotEntries (d : LocalDir) (i : Nat) (filename : String) : List Anim :=
  if filename ≠ "" then
    [{ id := d.dirName ++ "/" ++ filename,
       name := if i == 0 then d.dirName
               else d.dirName ++ " - " ++ (if i == 1 then "Suspend" else "Throbber"),
       target := VIDEO_TARGETS.getD i "" }]
  else []

/-- The per-directory body of `load_local_animations`.  `is_set` becomes
true either by a successful parse of an existing `config.json`, or — only
when no `config.json` exists — by one of the three default slot
filenames being present; a parse failure leaves `is_set` false (the
default-filename check sits in the `else` branch of the existence test),
so the directory is skipped.  Returns the set and its entries, or `none`
when the directory is skipped. -/
def scanDir (vnames : List String) (d : LocalDir) : Option (AnimSet × List Anim) :=
  let parsedDoc : Bool × AnimConfigDoc :=
    match d.cfgFile with
    | .parsed doc => (true, doc)
    | .malformed => (false, {})
    | .absent => (vnames.any (fun v => d.files.contains v), {})
  if parsedDoc.1 then
    let doc := parsedDoc.2
    let f0 := scanSlotFilename doc d (vnames.getD 0 "") 0
    let f1 := scanSlotFilename doc d (vnames.getD 1 "") 1
    let f2 := scanSlotFilename doc d (vnames.getD 2 "") 2
    some ({ id := d.dirName, enabled := doc.enabled?.getD true,
            boot := f0, suspend := f1, throbber := f2, enable := none },
          scanSlotEntries d 0 f0 ++ scanSlotEntries d 1 f1 ++ scanSlotEntries d 2 f2)
  else none

/-- `load_local_animations` of main.py over the listed subdirectories,
returning `(local_animations, local_sets)`. -/
def load_local_animations (vnames : List String) : List LocalDir → List Anim × List AnimSet
  | [] => ([], [])
  | d :: rest =>
    let tail := load_local_animations vnames rest
    match scanDir vnames d with
    | some (s, anims) => (anims ++ tail.1, s :: tail.2)
    | none => tail

/-! ### Resolver and activation engine (`apply_animation`, `apply_animations`) -/

/-- The environment `apply_animation` reads: platform, target
directories, pool roots, and the filesystem operations.  `fs` is
`os.path.exists`; `symlinkOk src tgt` (resp. `copyOk`) is whether
`os.symlink` (resp. `shutil.copy2`) succeeds, failure standing for the
exception the source catches at that call. -/
structure Env where
  isWindows : Bool
  steamuiMoviesPath : Option String
  overridePath : String
  downloadsRoot : String
  animationsRoot : String
  fs : String → Bool
  symlinkOk : String → String → Bool
  copyOk : String → String → Bool

/-- The `video_type` lookup loop at the top of `apply_animation`: the
type paired with the first matching entry of `VIDEOS_NAMES`. -/
def findVideoType (isWindows : Bool) (video : String) : Option String :=
  match ((videosNames isWindows).zip VIDEO_TYPES).find? (fun vt => vt.1 == video) with
  | some vt => some vt.2
  | none => none

/-- The target file path for a slot: `steamui/movies` on Windows when
available, else the uioverrides directory. -/
def targetPath (env : Env) (video : String) : String :=
  if env.isWindows && env.steamuiMoviesPath.isSome then
    pathJoin (env.steamuiMoviesPath.getD "") video
  else pathJoin env.overridePath video

/-- The resolution block of `apply_animation` (main.py lines 341-358):
first match wins across downloads, then custom animations, then local
scan entries; `none` when no pool contains the identifier. -/
def resolvePath (env : Env) (cfg : Config) (locals : List Anim) (anim_id : String) :
    Option String :=
  match cfg.downloads.find? (fun a => a.id == anim_id) with
  | some _ => some (pathJoin env.downloadsRoot (anim_id ++ ".webm"))
  | none =>
    match cfg.custom_animations.find? (fun a => a.id == anim_id) with
    | some a => some a.path
    | none =>
      match locals.find? (fun a => a.id == anim_id) with
      | some _ => some (pathJoin env.animationsRoot anim_id)
      | none => none

/-- Successful outcomes of `apply_animation`: slot skipped as
unsupported, selection cleared / backup restored (empty identifier),
symlink created, or file copied. -/
inductive ApplyOutcome where
  | skipped
  | cleared
  | linked (src tgt : String)
  | copied (src tgt : String)
  deriving Repr, DecidableEq

/-- The exceptions `apply_animation` can raise: identifier resolution
failed (`Failed to find animation`), the copy fallback failed
(`Failed to copy animation file`), or symlink creation failed with no
fallback taken (`Failed to create symlink`). -/
inductive ApplyError where
  | notFound (anim_id : String)
  | copyFailed (src tgt : String)
  | symlinkFailed (src tgt : String)
  deriving Repr, DecidableEq

/-- `apply_animation` of main.py.  Backup creation and stale-file
removal only log on failure in the source (they never raise), so they do
not appear in the control flow modelled here. -/
def apply_animation (env : Env) (cfg : Config) (locals : List Anim)
    (video anim_id : String) : Except ApplyError ApplyOutcome :=
  let video_type := findVideoType env.isWindows video
  if ((video_type.map (fun t => !is_video_supported env.isWindows t)).getD false) then
    .ok .skipped
  else
    let use_steamui := env.isWindows && env.steamuiMoviesPath.isSome
    let target := targetPath env video
    if anim_id == "" then
      .ok .cleared
    else
      match resolvePath env cfg locals anim_id with
      | none => .error (.notFound anim_id)
      | some path =>
        if !(env.fs path) then .error (.notFound anim_id)
        else if env.symlinkOk path target then .ok (.linked path target)
        else if env.isWindows || use_steamui then
          if env.copyOk path target then .ok (.copied path target)
          else .error (.copyFailed path target)
        else .error (.symlinkFailed path target)

/-- The loop body of `apply_animations`: slots processed in order, a
raised exception propagating out of the loop (so later slots are not
reached).  The returned trace has one element per attempted slot. -/
def applySlots (env : Env) (cfg : Config) (locals : List Anim) :
    List (String × String) → List (Except ApplyError ApplyOutcome)
  | [] => []
  | (v, a) :: rest =>
    match apply_animation env cfg locals v a with
    | .ok o => .ok o :: applySlots env cfg locals rest
    | .error e => [.error e]

/-- `apply_animations` of main.py: activate the three slots
`(VIDEOS_NAMES[i], config[VIDEO_TYPES[i]])` in order. -/
def apply_animations (env : Env) (st : PState) : List (Except ApplyError ApplyOutcome) :=
  applySlots env st.config st.local_animations
    ((videosNames env.isWindows).zip
      [st.config.boot, st.config.suspend, st.config.throbber])

/-! ### Catalog fetch (`get_steamdeckrepo`) -/

/-- `REQUEST_RETRIES` of main.py. -/
def REQUEST_RETRIES : Nat := 5

/-- A raw post of the steamdeckrepo API response, restricted to the keys
the translation reads (`entry['user']['steam_name']` flattened). -/
structure RawPost where
  id : String
  title : String := ""
  thumbnail : String := ""
  video : String := ""
  steam_name : String := ""
  content : String := ""
  updated_at : String := ""
  url : String := ""
  likes : Nat := 0
  downloads : Nat := 0
  type : String
  deriving Repr, DecidableEq

/-- One HTTP response of the fetch loop: status code and (for a 200
response) the parsed `posts` body. -/
structure HttpResponse where
  status : Nat
  posts : List RawPost := []
  deriving Repr, DecidableEq

/-- A catalog cache entry as built by `get_steamdeckrepo`. -/
structure CatalogEntry where
  id : String
  name : String
  preview_image : String
  preview_video : String
  author : String
  description : String
  last_changed : String
  source : String
  download_url : String
  likes : Nat
  downloads : Nat
  version : String
  target : String
  manifest_version : Nat
  deriving Repr, DecidableEq

/-- The dict comprehension of `get_steamdeckrepo` for one post. -/
def translatePost (p : RawPost) : CatalogEntry :=
  { id := p.id, name := p.title, preview_image := p.thumbnail,
    preview_video := p.video, author := p.steam_name, description := p.content,
    last_changed := p.updated_at, source := p.url,
    download_url := "https://steamdeckrepo.com/post/download/" ++ p.id,
    likes := p.likes, downloads := p.downloads, version := "",
    target := if p.type == "suspend_video" then "suspend" else "boot",
    manifest_version := 1 }

/-- The list comprehension of `get_steamdeckrepo`: keep only the posts
of a recognized animation kind, translated. -/
def translatePosts (posts : List RawPost) : List CatalogEntry :=
  (posts.filter (fun p => p.type == "suspend_video" || p.type == "boot_video")).map
    translatePost

/-- The exceptions of the fetch loop: `Rate limit exceeded` (on a 429)
and `Retry attempts exceeded, status code: ...` (retry bound reached,
carrying the last status seen). -/
inductive FetchError where
  | rateLimited
  | retriesExceeded (lastStatus : Nat)
  deriving Repr, DecidableEq

/-- The `for _ in range(REQUEST_RETRIES)` loop of `get_steamdeckrepo`:
`rs n` is the response of attempt `n` (0-based), `i` the next attempt
index, `last` the `status` variable, `fuel` the remaining iterations.
Returns the result together with the total number of attempts made. -/
def fetchAux (rs : Nat → HttpResponse) (i last fuel : Nat) :
    Except FetchError (List RawPost) × Nat :=
  match fuel with
  | 0 => (.error (.retriesExceeded last), i)
  | fuel' + 1 =>
    let r := rs i
    if r.status == 200 then (.ok r.posts, i + 1)
    else if r.status == 429 then (.error .rateLimited, i + 1)
    else fetchAux rs (i + 1) r.status fuel'

/-- `get_steamdeckrepo` of main.py: run the bounded fetch loop and
translate the body of the successful response. -/
def get_steamdeckrepo (rs : Nat → HttpResponse) : Except FetchError (List CatalogEntry) :=
  match (fetchAux rs 0 0 REQUEST_RETRIES).1 with
  | .ok posts => .ok (translatePosts posts)
  | .error e => .error e

/-- Number of fetch attempts `get_steamdeckrepo` performs. -/
def fetchAttempts (rs : Nat → HttpResponse) : Nat :=
  (fetchAux rs 0 0 REQUEST_RETRIES).2

/-! ### Helper lemmas -/

theorem getD_mod_mem {α : Type} (l : List α) (n : Nat) (d : α) (h : 0 < l.length) :
    l.getD (n % l.length) d ∈ l := by
  have hlt : n % l.length < l.length := Nat.mod_lt _ h
  rw [List.getD_eq_getElem l d hlt]
  exact List.getElem_mem hlt

theorem setSlotSel_current_set (c : Config) (i : Nat) (v : String) :
    (c.setSlotSel i v).current_set = c.current_set := by
  match i with
  | 0 => rfl
  | 1 => rfl
  | _ + 2 => rfl

/-! ### C2: randomize_current_set -/

/-- Concrete state for the C2 counterexample: one disabled local set
(so the union of scanned and custom sets contains no enabled set) and
non-empty slot selections. -/
def stC2 : PState :=
  { config := { boot := "x", suspend := "y", throbber := "z", current_set := "cs" },
    local_sets := [{ id := "s", enabled := false, boot := "a.webm" }] }

/-- C2 (counterexample): in a state whose set union contains no enabled
set, `randomize_current_set` does not leave the slot values and
`current_set` unchanged — it clears them (boot goes from `"x"` to
`""`). -/
theorem randomize_current_set_counterexample :
    get_active_sets stC2 = [] ∧
    stC2.config.boot = "x" ∧
    (randomize_current_set stC2 0).config.boot = "" ∧
    (randomize_current_set stC2 0).config.current_set = "" :=
  ⟨rfl, rfl, rfl, rfl⟩

/-- C2 (amended): when the union of scanned and custom sets contains no
enabled set, `randomize_current_set` clears the three slot values and
`current_set` to the empty string (it does not leave them unchanged);
whenever it does select, the chosen set is a member of the active pool
and has `enabled = true`, and becomes the current set. -/
theorem randomize_current_set_spec (st : PState) (r : Nat) :
    (get_active_sets st = [] →
      (randomize_current_set st r).config.boot = "" ∧
      (randomize_current_set st r).config.suspend = "" ∧
      (randomize_current_set st r).config.throbber = "" ∧
      (randomize_current_set st r).config.current_set = "") ∧
    (get_active_sets st ≠ [] →
      ∃ s, s ∈ get_active_sets st ∧ s.enabled = true ∧
        (randomize_current_set st r).config.current_set = s.id) := by
  constructor
  · intro h
    simp [randomize_current_set, h]
  · intro h
    have hlen : 0 < (get_active_sets st).length := List.length_pos.mpr h
    refine ⟨(get_active_sets st).getD (r % (get_active_sets st).length)
      ⟨"", false, "", "", "", none⟩, ?_, ?_, ?_⟩
    · exact getD_mod_mem _ r _ hlen
    · have hmem := getD_mod_mem (get_active_sets st) r ⟨"", false, "", "", "", none⟩ hlen
      have := (List.mem_filter.mp hmem).2
      simpa using this
    · simp only [randomize_current_set]
      rw [if_pos hlen]
      simp only [setSlotSel_current_set]
      split <;> split <;> split <;> simp [setSlotSel_current_set]

/-- Concrete states exercising both branches of the C2 theorem. -/
def stC2a : PState := { config := { boot := "x" } }

def stC2b : PState :=
  { config := {}, local_sets := [{ id := "s", enabled := true, boot := "a.webm" }] }

/-- Witness for the C2 theorem at concrete inputs. -/
theorem randomize_current_set_spec_witness :
    (randomize_current_set stC2a 0).config.boot = "" ∧
    (∃ s, s ∈ get_active_sets stC2b ∧ s.enabled = true ∧
      (randomize_current_set stC2b 0).config.current_set = s.id) :=
  ⟨((randomize_current_set_spec stC2a 0).1 (by decide)).1,
   (randomize_current_set_spec stC2b 0).2 (by decide)⟩

/-! ### C3 / C9: randomize_all -/

theorem randomize_all_boot (st : PState) (r : Nat → Nat) :
    (randomize_all st r).config.boot =
      (if (animPool st "boot").length > 0
       then ((animPool st "boot").getD (r 0 % (animPool st "boot").length) ⟨"", "", "", ""⟩).id
       else st.config.boot) := by
  simp only [randomize_all, VIDEO_TARGETS, List.getD_cons_zero, List.getD_cons_succ]
  repeat' split
  all_goals simp_all [Config.setSlotSel]

theorem randomize_all_suspend (st : PState) (r : Nat → Nat) :
    (randomize_all st r).config.suspend =
      (if (animPool st "suspend").length > 0
       then ((animPool st "suspend").getD (r 1 % (animPool st "suspend").length) ⟨"", "", "", ""⟩).id
       else st.config.suspend) := by
  simp only [randomize_all, VIDEO_TARGETS, List.getD_cons_zero, List.getD_cons_succ]
  repeat' split
  all_goals simp_all [Config.setSlotSel]

theorem randomize_all_throbber (st : PState) (r : Nat → Nat) :
    (randomize_all st r).config.throbber =
      (if (animPool st "suspend").length > 0
       then ((animPool st "suspend").getD (r 2 % (animPool st "suspend").length) ⟨"", "", "", ""⟩).id
       else st.config.throbber) := by
  simp only [randomize_all, VIDEO_TARGETS, List.getD_cons_zero, List.getD_cons_succ]
  repeat' split
  all_goals simp_all [Config.setSlotSel]

/-- Concrete state for the C3 counterexample: every eligible pool is
empty and the boot slot holds `"x"`. -/
def stC3 : PState := { config := { boot := "x", suspend := "y", throbber := "z" } }

/-- C3 (counterexample): with an empty eligible pool for the boot slot,
`randomize_all` does not clear the slot to the empty string — the prior
selection `"x"` survives. -/
theorem randomize_all_counterexample :
    animPool stC3 "boot" = [] ∧
    (randomize_all stC3 (fun n => n)).config.boot = "x" ∧
    (randomize_all stC3 (fun n => n)).config.boot ≠ "" := by
  refine ⟨rfl, rfl, by decide⟩

/-- C3 (amended): for every slot whose eligible pool is empty,
`randomize_all` leaves that slot's selection unchanged (it does not
clear it). -/
theorem randomize_all_empty_pool (st : PState) (r : Nat → Nat) (i : Nat)
    (hi : i < 3) (hp : animPool st (VIDEO_TARGETS.getD i "") = []) :
    (randomize_all st r).config.slotSel i = st.config.slotSel i := by
  interval_cases i
  · rw [show VIDEO_TARGETS.getD 0 "" = "boot" from rfl] at hp
    simp [Config.slotSel, randomize_all_boot, hp]
  · rw [show VIDEO_TARGETS.getD 1 "" = "suspend" from rfl] at hp
    simp [Config.slotSel, randomize_all_suspend, hp]
  · rw [show VIDEO_TARGETS.getD 2 "" = "suspend" from rfl] at hp
    simp [Config.slotSel, randomize_all_throbber, hp]

/-- Concrete state for the C3 witness: an empty boot pool with a prior
boot selection. -/
def stC3w : PState :=
  { config := { boot := "x" },
    local_animations := [{ id := "s/a.webm", target := "suspend" }] }

/-- Witness for the C3 theorem at a concrete input. -/
theorem randomize_all_empty_pool_witness :
    (randomize_all stC3w (fun n => n)).config.slotSel 0 = stC3w.config.slotSel 0 :=
  randomize_all_empty_pool stC3w (fun n => n) 0 (by decide) (by decide)

theorem animPool_getD_props (st : PState) (t : String) (n : Nat)
    (h : 0 < (animPool st t).length) :
    ((animPool st t).getD (n % (animPool st t).length) ⟨"", "", "", ""⟩) ∈
        st.local_animations ++ st.config.downloads ++ st.config.custom_animations ∧
    ((animPool st t).getD (n % (animPool st t).length) ⟨"", "", "", ""⟩).target = t ∧
    st.config.shuffle_exclusions.contains
        ((animPool st t).getD (n % (animPool st t).length) ⟨"", "", "", ""⟩).id = false := by
  have hmem := getD_mod_mem (animPool st t) n ⟨"", "", "", ""⟩ h
  have h1 := (List.mem_filter.mp hmem).1
  have h2 := (List.mem_filter.mp hmem).2
  simp only [Bool.and_eq_true, beq_iff_eq, Bool.not_eq_true'] at h2
  exact ⟨h1, h2.1, h2.2⟩

/-- C9: every identifier `randomize_all` assigns to a slot is the id of
an entry of the union of local, downloaded and custom animations whose
target matches that slot's target and which is not shuffle-excluded. -/
theorem randomize_all_selection_sound (st : PState) (r : Nat → Nat) (i : Nat)
    (hi : i < 3) (hne : animPool st (VIDEO_TARGETS.getD i "") ≠ []) :
    ∃ a, a ∈ st.local_animations ++ st.config.downloads ++ st.config.custom_animations ∧
      a.target = VIDEO_TARGETS.getD i "" ∧
      st.config.shuffle_exclusions.contains a.id = false ∧
      (randomize_all st r).config.slotSel i = a.id := by
  interval_cases i
  · rw [show VIDEO_TARGETS.getD 0 "" = "boot" from rfl] at hne ⊢
    have hlen : 0 < (animPool st "boot").length := List.length_pos.mpr hne
    have hp := animPool_getD_props st "boot" (r 0) hlen
    refine ⟨_, hp.1, hp.2.1, hp.2.2, ?_⟩
    simp [Config.slotSel, randomize_all_boot, hlen]
  · rw [show VIDEO_TARGETS.getD 1 "" = "suspend" from rfl] at hne ⊢
    have hlen : 0 < (animPool st "suspend").length := List.length_pos.mpr hne
    have hp := animPool_getD_props st "suspend" (r 1) hlen
    refine ⟨_, hp.1, hp.2.1, hp.2.2, ?_⟩
    simp [Config.slotSel, randomize_all_suspend, hlen]
  · rw [show VIDEO_TARGETS.getD 2 "" = "suspend" from rfl] at hne ⊢
    have hlen : 0 < (animPool st "suspend").length := List.length_pos.mpr hne
    have hp := animPool_getD_props st "suspend" (r 2) hlen
    refine ⟨_, hp.1, hp.2.1, hp.2.2, ?_⟩
    simp [Config.slotSel, randomize_all_throbber, hlen]

/-- Concrete state for the C9 witness: one eligible boot animation. -/
def stC9 : PState :=
  { config := {}, local_animations := [{ id := "s/b.webm", target := "boot" }] }

/-- Witness for the C9 theorem at a concrete input. -/
theorem randomize_all_selection_sound_witness :
    ∃ a, a ∈ stC9.local_animations ++ stC9.config.downloads ++ stC9.config.custom_animations ∧
      a.target = VIDEO_TARGETS.getD 0 "" ∧
      stC9.config.shuffle_exclusions.contains a.id = false ∧
      (randomize_all stC9 (fun n => n)).config.slotSel 0 = a.id :=
  randomize_all_selection_sound stC9 (fun n => n) 0 (by decide) (by decide)

/-! ### C10: saveCustomSet / saveCustomAnimation upsert -/

theorem map_filter_ne {α : Type} (f : α → String) (l : List α) (x : String) :
    (l.filter (fun s => !(f s == x))).map f = (l.map f).filter (fun s => !(s == x)) := by
  induction l with
  | nil => rfl
  | cons a t ih => cases h : f a == x <;> simp [List.filter_cons, h, ih]

theorem count_filter_ne (t : List String) (x i : String) (hi : i ≠ x) :
    (t.filter (fun s => !(s == x))).count i = t.count i := by
  induction t with
  | nil => rfl
  | cons a t ih =>
    cases h : a == x
    · simp [List.filter_cons, h, List.count_cons, ih]
    · have hax : a = x := by simpa using h
      have hne : (a == i) = false := by
        rw [hax]
        simp only [beq_eq_false_iff_ne]
        exact fun hc => hi hc.symm
      simp [List.filter_cons, h, List.count_cons, ih, hne]

theorem upsert_count (ids : List String) (x : String) :
    ((ids.filter (fun s => !(s == x)) ++ [x]).count x = 1) ∧
    (∀ i, i ≠ x → (ids.filter (fun s => !(s == x)) ++ [x]).count i = ids.count i) := by
  constructor
  · rw [List.count_append]
    have h0 : (ids.filter (fun s => !(s == x))).count x = 0 := by
      rw [List.count_eq_zero]
      intro hmem
      have := (List.mem_filter.mp hmem).2
      simp at this
    simp [h0]
  · intro i hi
    rw [List.count_append]
    have h1 : ([x] : List String).count i = 0 := by
      rw [List.count_eq_zero]
      simp [hi]
    rw [h1, Nat.add_zero, count_filter_ne ids x i hi]

/-- C10: `saveCustomSet` and `saveCustomAnimation` are upserts: the
saved id occurs exactly once afterwards, every other id's multiplicity
is unchanged, and the at-most-one-entry-per-id invariant of the store is
preserved (saving twice with the same id never produces duplicates). -/
theorem saveCustom_upsert (c : Config) (set_entry : AnimSet) (anim_entry : Anim) :
    ((saveCustomSet c set_entry).custom_sets.map AnimSet.id).count set_entry.id = 1 ∧
    (∀ i, i ≠ set_entry.id →
      ((saveCustomSet c set_entry).custom_sets.map AnimSet.id).count i
        = (c.custom_sets.map AnimSet.id).count i) ∧
    ((∀ i, (c.custom_sets.map AnimSet.id).count i ≤ 1) →
      ∀ i, ((saveCustomSet c set_entry).custom_sets.map AnimSet.id).count i ≤ 1) ∧
    ((saveCustomAnimation c anim_entry).custom_animations.map Anim.id).count anim_entry.id = 1 ∧
    (∀ i, i ≠ anim_entry.id →
      ((saveCustomAnimation c anim_entry).custom_animations.map Anim.id).count i
        = (c.custom_animations.map Anim.id).count i) ∧
    ((∀ i, (c.custom_animations.map Anim.id).count i ≤ 1) →
      ∀ i, ((saveCustomAnimation c anim_entry).custom_animations.map Anim.id).count i ≤ 1) := by
  have hsets : (saveCustomSet c set_entry).custom_sets.map AnimSet.id
      = (c.custom_sets.map AnimSet.id).filter (fun s => !(s == set_entry.id))
        ++ [set_entry.id] := by
    simp [saveCustomSet, remove_custom_set, map_filter_ne]
  have hanims : (saveCustomAnimation c anim_entry).custom_animations.map Anim.id
      = (c.custom_animations.map Anim.id).filter (fun s => !(s == anim_entry.id))
        ++ [anim_entry.id] := by
    simp [saveCustomAnimation, remove_custom_animation, map_filter_ne]
  have hs := upsert_count (c.custom_sets.map AnimSet.id) set_entry.id
  have ha := upsert_count (c.custom_animations.map Anim.id) anim_entry.id
  refine ⟨?_, ?_, ?_, ?_, ?_, ?_⟩
  · rw [hsets]; exact hs.1
  · intro i hi; rw [hsets]; exact hs.2 i hi
  · intro hinv i
    rw [hsets]
    by_cases hix : i = set_entry.id
    · subst hix; rw [hs.1]
    · rw [hs.2 i hix]; exact hinv i
  · rw [hanims]; exact ha.1
  · intro i hi; rw [hanims]; exact ha.2 i hi
  · intro hinv i
    rw [hanims]
    by_cases hix : i = anim_entry.id
    · subst hix; rw [ha.1]
    · rw [ha.2 i hix]; exact hinv i

/-- Concrete store and entries for the C10 witness: the store already
holds a custom set with the saved id. -/
def cfgC10 : Config :=
  { custom_sets := [{ id := "a", enabled := false }],
    custom_animations := [] }

def setC10 : AnimSet := { id := "a", enabled := true }

def animC10 : Anim := { id := "x", target := "boot", path := "/p/x.webm" }

/-- Witness for the C10 theorem at concrete inputs. -/
theorem saveCustom_upsert_witness :
    ((saveCustomSet cfgC10 setC10).custom_sets.map AnimSet.id).count "a" = 1 ∧
    ((saveCustomSet cfgC10 setC10).custom_sets.map AnimSet.id).count "b"
      = (cfgC10.custom_sets.map AnimSet.id).count "b" ∧
    (∀ i, ((saveCustomAnimation cfgC10 animC10).custom_animations.map Anim.id).count i ≤ 1) :=
  ⟨(saveCustom_upsert cfgC10 setC10 animC10).1,
   (saveCustom_upsert cfgC10 setC10 animC10).2.1 "b" (by decide),
   (saveCustom_upsert cfgC10 setC10 animC10).2.2.2.2.2 (fun i => by simp [cfgC10])⟩

/-! ### C4: enableSet -/

theorem updateFirst_map {α β : Type} (p : α → Bool) (f : α → α) (g : α → β)
    (hg : ∀ a, g (f a) = g a) (l : List α) :
    (updateFirst p f l).map g = l.map g := by
  induction l with
  | nil => rfl
  | cons a t ih => cases h : p a <;> simp [updateFirst, h, hg, ih]

theorem filter_enabled_map_id (l1 l2 : List AnimSet)
    (h : l1.map (fun s => (s.id, s.enabled)) = l2.map (fun s => (s.id, s.enabled))) :
    (l1.filter (fun s => s.enabled)).map AnimSet.id
      = (l2.filter (fun s => s.enabled)).map AnimSet.id := by
  induction l1 generalizing l2 with
  | nil =>
    cases l2 with
    | nil => rfl
    | cons b t2 => simp at h
  | cons a t1 ih =>
    cases l2 with
    | nil => simp at h
    | cons b t2 =>
      simp only [List.map_cons, List.cons.injEq, Prod.mk.injEq] at h
      obtain ⟨⟨hid, hen⟩, ht⟩ := h
      rw [List.filter_cons, List.filter_cons, ← hen]
      cases he : a.enabled <;> simp [he, hid, ih t2 ht]

/-- C4 (code bug): `Plugin.enableSet` assigns `entry['enable'] = enable`
— the key `'enable'`, not the `'enabled'` key that `get_active_sets` and
the scanner read — so for every state the `enabled` flag of every local
and custom set is unchanged by the call, and the enabled-set pool
consulted by `randomize_current_set` has exactly the same members as
before. -/
theorem enableSet_leaves_enabled_unchanged (st : PState) (set_id : String) (e : Bool) :
    ((enableSet st set_id e).local_sets.map (fun s => (s.id, s.enabled))
        = st.local_sets.map (fun s => (s.id, s.enabled))) ∧
    ((enableSet st set_id e).config.custom_sets.map (fun s => (s.id, s.enabled))
        = st.config.custom_sets.map (fun s => (s.id, s.enabled))) ∧
    ((get_active_sets (enableSet st set_id e)).map AnimSet.id
        = (get_active_sets st).map AnimSet.id) := by
  have h1 : ∀ l : List AnimSet,
      (updateFirst (fun entry => entry.id == set_id)
        (fun entry => { entry with enable := some e }) l).map (fun s => (s.id, s.enabled))
      = l.map (fun s => (s.id, s.enabled)) :=
    fun l => updateFirst_map (fun entry => entry.id == set_id)
      (fun entry => { entry with enable := some e })
      (fun s => (s.id, s.enabled)) (fun a => rfl) l
  refine ⟨?_, ?_, ?_⟩
  · simp only [enableSet]
    split <;> simp [h1]
  · simp only [enableSet]
    split <;> simp [h1]
  · apply filter_enabled_map_id
    simp only [enableSet]
    split <;> simp [List.map_append, h1]

/-! ### C5: scanner behaviour on config parse failure -/

/-- Directory listing for the C5 counterexample: directory `"a"` has a
`config.json` that fails to parse and the default boot filename on
disk; directory `"b"` has no `config.json` and the same file. -/
def dirsC5 : List LocalDir :=
  [{ dirName := "a", cfgFile := .malformed, files := ["deck_startup.webm"] },
   { dirName := "b", cfgFile := .absent, files := ["deck_startup.webm"] }]

/-- C5 (counterexample): although directory `"a"`'s default boot
filename exists on disk, the parse failure makes the scanner skip `"a"`
entirely — it yields no set and no entries (no fallback to
default-filename inference) — while directory `"b"` is still scanned. -/
theorem scan_parse_failure_counterexample :
    ((load_local_animations (videosNames false) dirsC5).2.map AnimSet.id = ["b"]) ∧
    ((load_local_animations (videosNames false) dirsC5).1.map Anim.id
        = ["b/deck_startup.webm"]) :=
  ⟨rfl, rfl⟩

/-- C5 (amended): a directory whose per-set config file exists but fails
to parse is logged and skipped entirely — it contributes no set and no
entries, even when default slot filenames exist on disk — and the scan
of the remaining directories proceeds exactly as if the directory were
not there. -/
theorem scan_parse_failure_skips_directory (vnames : List String) (d : LocalDir)
    (rest : List LocalDir) (h : d.cfgFile = .malformed) :
    load_local_animations vnames (d :: rest) = load_local_animations vnames rest := by
  simp [load_local_animations, scanDir, h]

/-- Witness for the C5 theorem at a concrete input. -/
theorem scan_parse_failure_skips_directory_witness :
    load_local_animations (videosNames false)
        [{ dirName := "c", cfgFile := .malformed, files := ["deck_startup.webm"] }]
      = load_local_animations (videosNames false) [] :=
  scan_parse_failure_skips_directory (videosNames false)
    { dirName := "c", cfgFile := .malformed, files := ["deck_startup.webm"] } [] rfl

/-! ### C8: resolution order and NotFoundError -/

/-- C8: identifier resolution tries downloads, then custom records, then
local scan entries, first match winning, with the claimed path for each
pool; and (for an activation that reaches resolution: non-empty
identifier, slot not skipped) the not-found error is raised iff no pool
contains the identifier or the resolved path does not exist on disk. -/
theorem resolve_order_and_notfound (env : Env) (cfg : Config) (locals : List Anim)
    (anim_id video : String) :
    (∀ a, cfg.downloads.find? (fun x => x.id == anim_id) = some a →
      resolvePath env cfg locals anim_id
        = some (pathJoin env.downloadsRoot (anim_id ++ ".webm"))) ∧
    (cfg.downloads.find? (fun x => x.id == anim_id) = none →
      ∀ a, cfg.custom_animations.find? (fun x => x.id == anim_id) = some a →
        resolvePath env cfg locals anim_id = some a.path) ∧
    (cfg.downloads.find? (fun x => x.id == anim_id) = none →
      cfg.custom_animations.find? (fun x => x.id == anim_id) = none →
      ∀ a, locals.find? (fun x => x.id == anim_id) = some a →
        resolvePath env cfg locals anim_id = some (pathJoin env.animationsRoot anim_id)) ∧
    (resolvePath env cfg locals anim_id = none ↔
      (∀ a ∈ cfg.downloads, a.id ≠ anim_id) ∧
      (∀ a ∈ cfg.custom_animations, a.id ≠ anim_id) ∧
      (∀ a ∈ locals, a.id ≠ anim_id)) ∧
    (anim_id ≠ "" →
      ((findVideoType env.isWindows video).map
        (fun t => !is_video_supported env.isWindows t)).getD false = false →
      (apply_animation env cfg locals video anim_id = .error (.notFound anim_id) ↔
        resolvePath env cfg locals anim_id = none ∨
        ∃ p, resolvePath env cfg locals anim_id = some p ∧ env.fs p = false)) := by
  refine ⟨?_, ?_, ?_, ?_, ?_⟩
  · intro a ha
    simp [resolvePath, ha]
  · intro hd a ha
    simp [resolvePath, hd, ha]
  · intro hd hc a ha
    simp [resolvePath, hd, hc, ha]
  · constructor
    · intro h
      simp only [resolvePath] at h
      cases hd : cfg.downloads.find? (fun x => x.id == anim_id) with
      | some a => rw [hd] at h; exact absurd h (by simp)
      | none =>
        rw [hd] at h
        cases hc : cfg.custom_animations.find? (fun x => x.id == anim_id) with
        | some a => rw [hc] at h; exact absurd h (by simp)
        | none =>
          rw [hc] at h
          cases hl : locals.find? (fun x => x.id == anim_id) with
          | some a => rw [hl] at h; exact absurd h (by simp)
          | none =>
            rw [List.find?_eq_none] at hd hc hl
            refine ⟨fun a ha => ?_, fun a ha => ?_, fun a ha => ?_⟩
            · simpa using hd a ha
            · simpa using hc a ha
            · simpa using hl a ha
    · intro ⟨hd, hc, hl⟩
      have hd2 : cfg.downloads.find? (fun x => x.id == anim_id) = none :=
        List.find?_eq_none.mpr (fun a ha => by simpa using hd a ha)
      have hc2 : cfg.custom_animations.find? (fun x => x.id == anim_id) = none :=
        List.find?_eq_none.mpr (fun a ha => by simpa using hc a ha)
      have hl2 : locals.find? (fun x => x.id == anim_id) = none :=
        List.find?_eq_none.mpr (fun a ha => by simpa using hl a ha)
      simp [resolvePath, hd2, hc2, hl2]
  · intro hid hsup
    have hid2 : (anim_id == "") = false := by simp [hid]
    cases hr : resolvePath env cfg locals anim_id with
    | none =>
      simp [apply_animation, hsup, hid2, hr]
    | some p =>
      cases hf : env.fs p with
      | false =>
        constructor
        · intro _
          exact Or.inr ⟨p, rfl, hf⟩
        · intro _
          simp [apply_animation, hsup, hid2, hr, hf]
      | true =>
        constructor
        · intro h
          exfalso
          revert h
          simp only [apply_animation, hsup, Bool.false_eq_true, if_false, hid2, hr, hf]
          simp only [Bool.not_true, Bool.false_eq_true, if_false]
          split
          · simp
          · split
            · split <;> simp
            · simp
        · rintro (h | ⟨q, hq, hfq⟩)
          · exact absurd h (by simp)
          · obtain rfl : p = q := Option.some.inj hq
            rw [hf] at hfq
            exact absurd hfq (by simp)

/-- Concrete environment with one downloaded record for the C8 witness. -/
def envC8 : Env :=
  { isWindows := false, steamuiMoviesPath := none, overridePath := "/ov",
    downloadsRoot := "/dl", animationsRoot := "/an",
    fs := fun _ => false, symlinkOk := fun _ _ => true, copyOk := fun _ _ => true }

def cfgC8 : Config := { downloads := [{ id := "d1", target := "boot" }] }

/-- Witness for the C8 theorem at concrete inputs: resolution of a
downloaded id yields the downloads path, and an identifier present in no
pool makes activation raise the not-found error. -/
theorem resolve_order_and_notfound_witness :
    resolvePath envC8 cfgC8 [] "d1" = some (pathJoin "/dl" ("d1" ++ ".webm")) ∧
    apply_animation envC8 cfgC8 [] "deck_startup.webm" "zzz"
      = .error (.notFound "zzz") :=
  ⟨(resolve_order_and_notfound envC8 cfgC8 [] "d1" "deck_startup.webm").1
      { id := "d1", target := "boot" } rfl,
   ((resolve_order_and_notfound envC8 cfgC8 [] "zzz" "deck_startup.webm").2.2.2.2
      (by decide) (by decide)).mpr (Or.inl rfl)⟩

/-! ### C1: per-slot fault isolation of apply_animations -/

/-- Concrete environment and state for the C1 counterexample:
Linux, a downloaded suspend animation on disk, and a boot identifier
`"x"` that resolves nowhere. -/
def envC1 : Env :=
  { isWindows := false, steamuiMoviesPath := none, overridePath := "/ov",
    downloadsRoot := "/dl", animationsRoot := "/an",
    fs := fun p => p == "/dl/d1.webm",
    symlinkOk := fun _ _ => true, copyOk := fun _ _ => true }

def stC1 : PState :=
  { config := { boot := "x", suspend := "d1",
                downloads := [{ id := "d1", target := "suspend" }] } }

/-- C1 (counterexample): the boot slot's identifier fails to resolve and
the exception aborts `apply_animations` — only one slot is attempted —
even though the suspend slot would activate successfully on its own. -/
theorem apply_animations_counterexample :
    apply_animations envC1 stC1 = [.error (.notFound "x")] ∧
    apply_animation envC1 stC1.config stC1.local_animations
        "steam_os_suspend.webm" stC1.config.suspend
      = .ok (.linked "/dl/d1.webm" "/ov/steam_os_suspend.webm") :=
  ⟨rfl, rfl⟩

/-- C1 (amended): activation is not fault-isolated per slot: an
exception raised while activating one slot propagates out of
`apply_animations` and prevents the remaining slots from being
attempted.  A failure at the first slot yields a one-element trace; a
failure at the second slot (after a successful first slot) yields a
two-element trace. -/
theorem apply_animations_aborts (env : Env) (st : PState) :
    (∀ e, apply_animation env st.config st.local_animations
        ((videosNames env.isWindows).getD 0 "") st.config.boot = .error e →
      apply_animations env st = [.error e]) ∧
    (∀ o e, apply_animation env st.config st.local_animations
        ((videosNames env.isWindows).getD 0 "") st.config.boot = .ok o →
      apply_animation env st.config st.local_animations
        ((videosNames env.isWindows).getD 1 "") st.config.suspend = .error e →
      apply_animations env st = [.ok o, .error e]) := by
  cases hw : env.isWindows
  · constructor
    · intro e he
      simp only [videosNames, hw, Bool.false_eq_true, if_false, List.getD_cons_zero] at he
      simp [apply_animations, applySlots, videosNames, hw, he]
    · intro o e ho he
      simp only [videosNames, hw, Bool.false_eq_true, if_false, List.getD_cons_zero,
        List.getD_cons_succ] at ho he
      simp [apply_animations, applySlots, videosNames, hw, ho, he]
  · constructor
    · intro e he
      simp only [videosNames, hw, if_true, List.getD_cons_zero] at he
      simp [apply_animations, applySlots, videosNames, hw, he]
    · intro o e ho he
      simp only [videosNames, hw, if_true, List.getD_cons_zero, List.getD_cons_succ] at ho he
      simp [apply_animations, applySlots, videosNames, hw, ho, he]

/-- Concrete environment and state for the C1 witness: no file resolves,
so the boot slot fails. -/
def envC1w : Env :=
  { isWindows := false, steamuiMoviesPath := none, overridePath := "/ov",
    downloadsRoot := "/dl", animationsRoot := "/an",
    fs := fun _ => false, symlinkOk := fun _ _ => true, copyOk := fun _ _ => true }

def stC1w : PState := { config := { boot := "x", suspend := "y" } }

/-- Witness for the C1 theorem at a concrete input. -/
theorem apply_animations_aborts_witness :
    apply_animations envC1w stC1w = [.error (.notFound "x")] :=
  (apply_animations_aborts envC1w stC1w).1 (.notFound "x") rfl

/-! ### C6: symlink failure and the copy fallback -/

/-- Concrete environment for the C6 counterexample: Linux, symlink
creation denied, a copy that would succeed. -/
def envC6 : Env :=
  { isWindows := false, steamuiMoviesPath := none, overridePath := "/ov",
    downloadsRoot := "/dl", animationsRoot := "/an",
    fs := fun p => p == "/dl/d1.webm",
    symlinkOk := fun _ _ => false, copyOk := fun _ _ => true }

def cfgC6 : Config := { downloads := [{ id := "d1", target := "boot" }] }

/-- C6 (counterexample): on Linux, when symlink creation at the target
is denied for a resolvable identifier, `apply_animation` raises the
symlink failure directly — no copy fallback is attempted even though the
copy would succeed (the raised error is not the copy error). -/
theorem apply_animation_fallback_counterexample :
    apply_animation envC6 cfgC6 [] "deck_startup.webm" "d1"
      = .error (.symlinkFailed "/dl/d1.webm" "/ov/deck_startup.webm") :=
  rfl

/-- C6 (amended): the copy fallback exists only on Windows.  For a slot
activation that reaches the link step (resolvable identifier, file on
disk) whose symlink creation fails: on Windows the engine falls back to
a full file copy and only a failure of that copy raises the fatal copy
error; on any other platform the symlink failure itself is raised with
no copy attempted. -/
theorem apply_animation_fallback_spec (env : Env) (cfg : Config) (locals : List Anim)
    (video anim_id path : String)
    (hid : anim_id ≠ "")
    (hsup : ((findVideoType env.isWindows video).map
      (fun t => !is_video_supported env.isWindows t)).getD false = false)
    (hres : resolvePath env cfg locals anim_id = some path)
    (hfs : env.fs path = true)
    (hln : env.symlinkOk path (targetPath env video) = false) :
    (env.isWindows = true →
      apply_animation env cfg locals video anim_id
        = (if env.copyOk path (targetPath env video)
           then .ok (.copied path (targetPath env video))
           else .error (.copyFailed path (targetPath env video)))) ∧
    (env.isWindows = false →
      apply_animation env cfg locals video anim_id
        = .error (.symlinkFailed path (targetPath env video))) := by
  have hid2 : (anim_id == "") = false := by simp [hid]
  constructor <;> intro hw <;>
  · rw [hw] at hsup
    simp [apply_animation, hsup, hid2, hres, hfs, hln, hw]

/-- Concrete environment for the C6 witness: Windows with a working
`steamui/movies` path, symlink denied. -/
def envC6w : Env :=
  { isWindows := true, steamuiMoviesPath := some "/sm", overridePath := "/ov",
    downloadsRoot := "/dl", animationsRoot := "/an",
    fs := fun p => p == "/dl/d1.webm",
    symlinkOk := fun _ _ => false, copyOk := fun _ _ => true }

/-- Witness for the C6 theorem at a concrete input (Windows branch). -/
theorem apply_animation_fallback_spec_witness :
    apply_animation envC6w cfgC6 [] "bigpicture_startup.webm" "d1"
      = (if envC6w.copyOk "/dl/d1.webm" (targetPath envC6w "bigpicture_startup.webm")
         then .ok (.copied "/dl/d1.webm" (targetPath envC6w "bigpicture_startup.webm"))
         else .error (.copyFailed "/dl/d1.webm"
           (targetPath envC6w "bigpicture_startup.webm"))) :=
  (apply_animation_fallback_spec envC6w cfgC6 [] "bigpicture_startup.webm" "d1"
      "/dl/d1.webm" (by decide) (by decide) rfl rfl rfl).1 rfl

/-! ### C7: fetch retry behaviour -/

theorem fetchAux_attempts_le (rs : Nat → HttpResponse) (fuel : Nat) :
    ∀ i last, (fetchAux rs i last fuel).2 ≤ i + fuel := by
  induction fuel with
  | zero => intro i last; simp [fetchAux]
  | succ n ih =>
    intro i last
    simp only [fetchAux]
    split
    · simp
    · split
      · simp
      · have := ih (i + 1) ((rs i).status)
        omega

theorem fetchAux_hit (rs : Nat → HttpResponse) (fuel : Nat) :
    ∀ i last k, k < fuel →
      (∀ j, i ≤ j → j < i + k → (rs j).status ≠ 200 ∧ (rs j).status ≠ 429) →
      (((rs (i + k)).status = 200 →
        fetchAux rs i last fuel = (.ok (rs (i + k)).posts, i + k + 1)) ∧
       ((rs (i + k)).status = 429 →
        fetchAux rs i last fuel = (.error .rateLimited, i + k + 1))) := by
  induction fuel with
  | zero => intro i last k hk; omega
  | succ n ih =>
    intro i last k hk hprev
    cases k with
    | zero =>
      constructor
      · intro h200
        simp only [Nat.add_zero] at h200 ⊢
        simp [fetchAux, h200]
      · intro h429
        simp only [Nat.add_zero] at h429 ⊢
        have hc : ((rs i).status == 200) = false := by simp [h429]
        simp [fetchAux, hc, h429]
    | succ m =>
      have h0 := hprev i (le_refl i) (by omega)
      have hc200 : ((rs i).status == 200) = false := by simp [h0.1]
      have hc429 : ((rs i).status == 429) = false := by simp [h0.2]
      have hrec := ih (i + 1) ((rs i).status) m (by omega)
        (fun j hj1 hj2 => hprev j (by omega) (by omega))
      have e1 : i + (m + 1) = i + 1 + m := by omega
      rw [e1]
      constructor
      · intro h200
        simp only [fetchAux, hc200, hc429, Bool.false_eq_true, if_false]
        exact hrec.1 h200
      · intro h429
        simp only [fetchAux, hc200, hc429, Bool.false_eq_true, if_false]
        exact hrec.2 h429

theorem fetchAux_exhaust (rs : Nat → HttpResponse) (fuel : Nat) :
    ∀ i last, 0 < fuel →
      (∀ j, i ≤ j → j < i + fuel → (rs j).status ≠ 200 ∧ (rs j).status ≠ 429) →
      fetchAux rs i last fuel
        = (.error (.retriesExceeded ((rs (i + fuel - 1)).status)), i + fuel) := by
  induction fuel with
  | zero => intro i last h; omega
  | succ n ih =>
    intro i last _ hprev
    have h0 := hprev i (le_refl i) (by omega)
    have hc200 : ((rs i).status == 200) = false := by simp [h0.1]
    have hc429 : ((rs i).status == 429) = false := by simp [h0.2]
    simp only [fetchAux, hc200, hc429, Bool.false_eq_true, if_false]
    cases n with
    | zero =>
      simp [fetchAux]
    | succ m =>
      have hrec := ih (i + 1) ((rs i).status) (by omega)
        (fun j h1 h2 => hprev j (by omega) (by omega))
      rw [hrec]
      have e1 : i + 1 + (m + 1) - 1 = i + (m + 1 + 1) - 1 := by omega
      have e2 : i + 1 + (m + 1) = i + (m + 1 + 1) := by omega
      rw [e1, e2]

/-- C7: catalog refresh performs at most 5 fetch attempts; reaching an
attempt whose earlier responses were all retryable (neither 200 nor
429), a 200 response returns the translated entry set immediately and a
429 raises the rate-limit error immediately, in both cases with no
further attempt; and when all 5 attempts are retryable the loop raises
the retries-exceeded error carrying the last (5th) status code. -/
theorem get_steamdeckrepo_retry_spec (rs : Nat → HttpResponse) :
    fetchAttempts rs ≤ 5 ∧
    (∀ i, i < 5 → (∀ j, j < i → (rs j).status ≠ 200 ∧ (rs j).status ≠ 429) →
      (((rs i).status = 200 →
        get_steamdeckrepo rs = .ok (translatePosts (rs i).posts) ∧
          fetchAttempts rs = i + 1) ∧
       ((rs i).status = 429 →
        get_steamdeckrepo rs = .error .rateLimited ∧ fetchAttempts rs = i + 1))) ∧
    ((∀ j, j < 5 → (rs j).status ≠ 200 ∧ (rs j).status ≠ 429) →
      get_steamdeckrepo rs = .error (.retriesExceeded ((rs 4).status)) ∧
      fetchAttempts rs = 5) := by
  refine ⟨?_, ?_, ?_⟩
  · have h := fetchAux_attempts_le rs 5 0 0
    simpa [fetchAttempts, REQUEST_RETRIES] using h
  · intro i hi hprev
    have hb := fetchAux_hit rs 5 0 0 i hi (fun j hj1 hj2 => hprev j (by omega))
    simp only [Nat.zero_add] at hb
    constructor
    · intro h200
      have hq := hb.1 h200
      constructor
      · simp [get_steamdeckrepo, REQUEST_RETRIES, hq]
      · simp [fetchAttempts, REQUEST_RETRIES, hq]
    · intro h429
      have hq := hb.2 h429
      constructor
      · simp [get_steamdeckrepo, REQUEST_RETRIES, hq]
      · simp [fetchAttempts, REQUEST_RETRIES, hq]
  · intro hprev
    have hc := fetchAux_exhaust rs 5 0 0 (by omega) (fun j h1 h2 => hprev j (by omega))
    simp only [Nat.zero_add] at hc
    constructor
    · simp [get_steamdeckrepo, REQUEST_RETRIES, hc]
    · simp [fetchAttempts, REQUEST_RETRIES, hc]

/-- Response sequences for the C7 witness: two 503s then a 429, and an
endless stream of 503s. -/
def rsC7a : Nat → HttpResponse :=
  fun n => if n < 2 then { status := 503 } else { status := 429 }

def rsC7b : Nat → HttpResponse := fun _ => { status := 503 }

/-- Witness for the C7 theorem at concrete inputs: `[503, 503, 429]`
raises the rate-limit error on the third attempt, and five 503s raise
the retries-exceeded error after exactly 5 attempts. -/
theorem get_steamdeckrepo_retry_spec_witness :
    (get_steamdeckrepo rsC7a = .error .rateLimited ∧ fetchAttempts rsC7a = 3) ∧
    (get_steamdeckrepo rsC7b = .error (.retriesExceeded 503) ∧ fetchAttempts rsC7b = 5) :=
  ⟨((get_steamdeckrepo_retry_spec rsC7a).2.1 2 (by decide)
      (fun j hj => by interval_cases j <;> exact ⟨by decide, by decide⟩)).2 (by decide),
   (get_steamdeckrepo_retry_spec rsC7b).2.2
      (fun j hj => by refine ⟨?_, ?_⟩ <;> simp [rsC7b])⟩

end AnimationChanger
